import Mathlib

/-!
Shallow embedding of clang/include/clang/Basic/PointerAuthOptions.h.

The C++ `PointerAuthSchema` is a bit-packed union: every variant shares a
common header `Kind : 2 bits`, `AddressDiscriminated : 1 bit`,
`Discrimination : 2 bits`; the `Soft` variant adds `Key : 3 bits` and the
`ARM8_3` variant adds `Key : 2 bits` in the same position.  We model the
storage as four bounded fields (`Fin 4`, `Fin 2`, `Fin 4`, `Fin 8`).  The
ARM8_3 constructor writes only the low two key bits, so it takes the third,
indeterminate key bit as an explicit `junk` argument; the default
constructor writes only the kind bits and takes all remaining storage as
junk arguments.  Enum fields are read back as their raw bit values
(`Fin n`), and each named enumerator has a `toBits` numeral matching the
source.  `assert` failures and `llvm_unreachable` are modelled by `Option`
results (`none` = trap); `getKey` distinguishes its two distinct
`llvm_unreachable` sites via the `KeyOutcome` type.
-/

set_option maxRecDepth 100000

namespace PointerAuth

/-- The signing kinds of `PointerAuthSchema::Kind`: `None`, `Soft`, `ARM8_3`. -/
inductive Kind where
  | None
  | Soft
  | ARM8_3
deriving DecidableEq, Fintype

/-- Numeric value of a `Kind` as stored in the 2-bit `Common.Kind` field. -/
def Kind.toBits : Kind → Fin 4
  | Kind.None => 0
  | Kind.Soft => 1
  | Kind.ARM8_3 => 2

/-- Software pointer-signing keys, `PointerAuthSchema::SoftKey`. -/
inductive SoftKey where
  | FunctionPointers
  | BlockInvocationFunctionPointers
  | BlockHelperFunctionPointers
  | ObjCMethodListFunctionPointers
  | CXXVTablePointers
  | CXXVirtualFunctionPointers
  | CXXMemberFunctionPointers
deriving DecidableEq, Fintype

/-- Numeric value of a `SoftKey` as stored in the 3-bit `Soft.Key` field. -/
def SoftKey.toBits : SoftKey → Fin 8
  | SoftKey.FunctionPointers => 0
  | SoftKey.BlockInvocationFunctionPointers => 1
  | SoftKey.BlockHelperFunctionPointers => 2
  | SoftKey.ObjCMethodListFunctionPointers => 3
  | SoftKey.CXXVTablePointers => 4
  | SoftKey.CXXVirtualFunctionPointers => 5
  | SoftKey.CXXMemberFunctionPointers => 6

/-- Hardware pointer-signing keys in ARM8.3, `PointerAuthSchema::ARM8_3Key`. -/
inductive ARM8_3Key where
  | ASIA
  | ASIB
  | ASDA
  | ASDB
deriving DecidableEq, Fintype

/-- Numeric value of an `ARM8_3Key` as stored in the 2-bit `ARM8_3.Key` field. -/
def ARM8_3Key.toBits : ARM8_3Key → Fin 4
  | ARM8_3Key.ASIA => 0
  | ARM8_3Key.ASIB => 1
  | ARM8_3Key.ASDA => 2
  | ARM8_3Key.ASDB => 3

/-- Forms of extra discrimination, `PointerAuthSchema::Discrimination`.
The source names the last two enumerators `Type` and `Decl`; `Type` is a
Lean keyword, so we use the spec's names `TypeHash` / `DeclHash`. -/
inductive Discrimination where
  | None
  | TypeHash
  | DeclHash
deriving DecidableEq, Fintype

/-- Numeric value of a `Discrimination` in the 2-bit `Common.Discrimination` field. -/
def Discrimination.toBits : Discrimination → Fin 4
  | Discrimination.None => 0
  | Discrimination.TypeHash => 1
  | Discrimination.DeclHash => 2

/-- The bit-level storage of a `PointerAuthSchema` value.  All union
variants alias the same bits: `kindBits` is `Common.Kind` (2 bits),
`addrDiscBit` is `Common.AddressDiscriminated` (1 bit), `discBits` is
`Common.Discrimination` (2 bits) and `keyBits` holds `Soft.Key` (3 bits),
whose low two bits are also `ARM8_3.Key`. -/
structure PointerAuthSchema where
  kindBits : Fin 4
  addrDiscBit : Fin 2
  discBits : Fin 4
  keyBits : Fin 8
deriving DecidableEq, Fintype

/-- Default constructor `PointerAuthSchema()`: only `Common.Kind` is
assigned (to `Kind::None`); the remaining storage is indeterminate and is
therefore taken as explicit junk arguments. -/
def PointerAuthSchema.mkDefault (a : Fin 2) (d : Fin 4) (k : Fin 8) :
    PointerAuthSchema :=
  ⟨Kind.toBits Kind.None, a, d, k⟩

/-- Constructor `PointerAuthSchema(SoftKey, bool, Discrimination)`: writes
`Common.Kind`, `Common.AddressDiscriminated`, `Common.Discrimination` and
the full 3-bit `Soft.Key`, so every bit of the storage is determined. -/
def PointerAuthSchema.mkSoft (key : SoftKey) (isAddressDiscriminated : Bool)
    (otherDiscrimination : Discrimination) : PointerAuthSchema :=
  ⟨Kind.toBits Kind.Soft,
   if isAddressDiscriminated then 1 else 0,
   otherDiscrimination.toBits,
   key.toBits⟩

/-- Constructor `PointerAuthSchema(ARM8_3Key, bool, Discrimination)`:
writes the common header and the 2-bit `ARM8_3.Key`; the third key bit of
the aliased `Soft.Key` field stays indeterminate and is taken as the
explicit `junkHigh` argument. -/
def PointerAuthSchema.mkARM8_3 (key : ARM8_3Key) (isAddressDiscriminated : Bool)
    (otherDiscrimination : Discrimination) (junkHigh : Fin 2) :
    PointerAuthSchema :=
  ⟨Kind.toBits Kind.ARM8_3,
   if isAddressDiscriminated then 1 else 0,
   otherDiscrimination.toBits,
   ⟨junkHigh.val * 4 + key.toBits.val, by
     have h1 := junkHigh.isLt
     have h2 := key.toBits.isLt
     omega⟩⟩

/-- `getKind()`: returns `Kind(Common.Kind)` unconditionally.  We return
the raw 2-bit value, since the C++ cast does not fault even on the
out-of-range bit pattern 3. -/
def PointerAuthSchema.getKind (s : PointerAuthSchema) : Fin 4 :=
  s.kindBits

/-- `isEnabled()`: `getKind() != Kind::None`. -/
def PointerAuthSchema.isEnabled (s : PointerAuthSchema) : Bool :=
  decide (s.getKind ≠ Kind.toBits Kind.None)

/-- `explicit operator bool()`: returns `isEnabled()`; total, never faults. -/
def PointerAuthSchema.toBool (s : PointerAuthSchema) : Bool :=
  s.isEnabled

/-- `isAddressDiscriminated()`: asserts `getKind() != Kind::None`, then
returns the `Common.AddressDiscriminated` bit as a bool.  `none` models the
assertion trap. -/
def PointerAuthSchema.isAddressDiscriminated (s : PointerAuthSchema) :
    Option Bool :=
  if s.getKind = Kind.toBits Kind.None then none
  else some (decide (s.addrDiscBit = 1))

/-- `getOtherDiscrimination()`: asserts `getKind() != Kind::None`, then
returns `Discrimination(Common.Discrimination)` — modelled as the raw
2-bit value. -/
def PointerAuthSchema.getOtherDiscrimination (s : PointerAuthSchema) :
    Option (Fin 4) :=
  if s.getKind = Kind.toBits Kind.None then none
  else some s.discBits

/-- `hasOtherDiscrimination()`: `getOtherDiscrimination() != Discrimination::None`;
faults exactly when `getOtherDiscrimination()` faults. -/
def PointerAuthSchema.hasOtherDiscrimination (s : PointerAuthSchema) :
    Option Bool :=
  s.getOtherDiscrimination.map (fun d => decide (d ≠ Discrimination.toBits Discrimination.None))

/-- `getSoftKey()`: asserts `getKind() == Kind::Soft`, then returns
`SoftKey(Soft.Key)` — modelled as the raw 3-bit value. -/
def PointerAuthSchema.getSoftKey (s : PointerAuthSchema) : Option (Fin 8) :=
  if s.getKind = Kind.toBits Kind.Soft then some s.keyBits else none

/-- `getARM8_3Key()`: asserts `getKind() == Kind::ARM8_3`, then returns
`ARM8_3Key(ARM8_3.Key)` — the low two bits of the key field. -/
def PointerAuthSchema.getARM8_3Key (s : PointerAuthSchema) : Option (Fin 4) :=
  if s.getKind = Kind.toBits Kind.ARM8_3 then
    some ⟨s.keyBits.val % 4, Nat.mod_lt _ (by omega)⟩
  else none

/-- Result of `getKey()`: a returned index, the explicit
`llvm_unreachable("calling getKey() on disabled schema")` in the
`Kind::None` case, or the trailing `llvm_unreachable("bad key kind")`. -/
inductive KeyOutcome where
  | val (n : Nat)
  | disabledTrap
  | badKindTrap
deriving DecidableEq

/-- `getKey()`: switches on `getKind()`; `Kind::None` hits the explicit
unreachable, `Kind::Soft` returns `unsigned(getSoftKey())`, `Kind::ARM8_3`
returns `unsigned(getARM8_3Key())`, and the out-of-range bit pattern 3
matches no case and falls through to `llvm_unreachable("bad key kind")`. -/
def PointerAuthSchema.getKey (s : PointerAuthSchema) : KeyOutcome :=
  if s.getKind = Kind.toBits Kind.None then KeyOutcome.disabledTrap
  else if s.getKind = Kind.toBits Kind.Soft then KeyOutcome.val s.keyBits.val
  else if s.getKind = Kind.toBits Kind.ARM8_3 then KeyOutcome.val (s.keyBits.val % 4)
  else KeyOutcome.badKindTrap

/-- Observational equality of two schema values: the class defines no
`operator==`, so two values are interchangeable exactly when every public
accessor (including whether it traps) agrees on them. -/
def PointerAuthSchema.observEq (s t : PointerAuthSchema) : Prop :=
  s.getKind = t.getKind ∧
  s.toBool = t.toBool ∧
  s.isEnabled = t.isEnabled ∧
  s.isAddressDiscriminated = t.isAddressDiscriminated ∧
  s.getOtherDiscrimination = t.getOtherDiscrimination ∧
  s.hasOtherDiscrimination = t.hasOtherDiscrimination ∧
  s.getSoftKey = t.getSoftKey ∧
  s.getARM8_3Key = t.getARM8_3Key ∧
  s.getKey = t.getKey

instance (s t : PointerAuthSchema) : Decidable (s.observEq t) := by
  unfold PointerAuthSchema.observEq
  infer_instance

/-- The `PointerAuthOptions` aggregate: four boolean ABI flags (each with
in-class initializer `= false`) and ten `PointerAuthSchema` slots. -/
structure PointerAuthOptions where
  ThunkCXXVirtualMemberPointers : Bool
  ReturnAddresses : Bool
  IndirectGotos : Bool
  AuthTraps : Bool
  FunctionPointers : PointerAuthSchema
  BlockInvocationFunctionPointers : PointerAuthSchema
  BlockHelperFunctionPointers : PointerAuthSchema
  BlockByrefHelperFunctionPointers : PointerAuthSchema
  ObjCMethodListFunctionPointers : PointerAuthSchema
  CXXVTablePointers : PointerAuthSchema
  CXXVTTVTablePointers : PointerAuthSchema
  CXXVirtualFunctionPointers : PointerAuthSchema
  CXXVirtualVariadicFunctionPointers : PointerAuthSchema
  CXXMemberFunctionPointers : PointerAuthSchema

/-- Default-constructed `PointerAuthOptions`: the four flags take their
`= false` initializers and each schema slot is default-constructed, i.e.
kind `None` with indeterminate remaining bits, supplied per-slot by `j`. -/
def PointerAuthOptions.mkDefault (j : Fin 10 → Fin 2 × Fin 4 × Fin 8) :
    PointerAuthOptions where
  ThunkCXXVirtualMemberPointers := false
  ReturnAddresses := false
  IndirectGotos := false
  AuthTraps := false
  FunctionPointers := PointerAuthSchema.mkDefault (j 0).1 (j 0).2.1 (j 0).2.2
  BlockInvocationFunctionPointers := PointerAuthSchema.mkDefault (j 1).1 (j 1).2.1 (j 1).2.2
  BlockHelperFunctionPointers := PointerAuthSchema.mkDefault (j 2).1 (j 2).2.1 (j 2).2.2
  BlockByrefHelperFunctionPointers := PointerAuthSchema.mkDefault (j 3).1 (j 3).2.1 (j 3).2.2
  ObjCMethodListFunctionPointers := PointerAuthSchema.mkDefault (j 4).1 (j 4).2.1 (j 4).2.2
  CXXVTablePointers := PointerAuthSchema.mkDefault (j 5).1 (j 5).2.1 (j 5).2.2
  CXXVTTVTablePointers := PointerAuthSchema.mkDefault (j 6).1 (j 6).2.1 (j 6).2.2
  CXXVirtualFunctionPointers := PointerAuthSchema.mkDefault (j 7).1 (j 7).2.1 (j 7).2.2
  CXXVirtualVariadicFunctionPointers := PointerAuthSchema.mkDefault (j 8).1 (j 8).2.1 (j 8).2.2
  CXXMemberFunctionPointers := PointerAuthSchema.mkDefault (j 9).1 (j 9).2.1 (j 9).2.2

/-- Assignment into the `CXXVTablePointers` slot of a `PointerAuthOptions`
value: a plain member store, leaving every other member untouched. -/
def PointerAuthOptions.setCXXVTablePointers (o : PointerAuthOptions)
    (s : PointerAuthSchema) : PointerAuthOptions :=
  { o with CXXVTablePointers := s }

/-- Claim C1: for every SoftKey `k`, bool `a` and Discrimination `d`, the
schema built by the Soft constructor satisfies `getSoftKey() == k`,
`isAddressDiscriminated() == a`, `getOtherDiscrimination() == d`,
`getKind() == Kind::Soft` and `isEnabled() == true`; symmetrically for the
ARM8_3 constructor (for every value of its indeterminate high key bit). -/
theorem make_round_trip :
    (∀ (k : SoftKey) (a : Bool) (d : Discrimination),
      (PointerAuthSchema.mkSoft k a d).getSoftKey = some k.toBits ∧
      (PointerAuthSchema.mkSoft k a d).isAddressDiscriminated = some a ∧
      (PointerAuthSchema.mkSoft k a d).getOtherDiscrimination = some d.toBits ∧
      (PointerAuthSchema.mkSoft k a d).getKind = Kind.toBits Kind.Soft ∧
      (PointerAuthSchema.mkSoft k a d).isEnabled = true) ∧
    (∀ (k : ARM8_3Key) (a : Bool) (d : Discrimination) (j : Fin 2),
      (PointerAuthSchema.mkARM8_3 k a d j).getARM8_3Key = some k.toBits ∧
      (PointerAuthSchema.mkARM8_3 k a d j).isAddressDiscriminated = some a ∧
      (PointerAuthSchema.mkARM8_3 k a d j).getOtherDiscrimination = some d.toBits ∧
      (PointerAuthSchema.mkARM8_3 k a d j).getKind = Kind.toBits Kind.ARM8_3 ∧
      (PointerAuthSchema.mkARM8_3 k a d j).isEnabled = true) := by
  decide

/-- Claim C2: on a schema whose kind bits are `Kind::None`, each of
`isAddressDiscriminated`, `getOtherDiscrimination`, `getSoftKey`,
`getARM8_3Key` traps (returns `none`), and `getKey` hits its explicit
disabled-schema unreachable. -/
theorem disabled_query_faults (s : PointerAuthSchema)
    (h : s.getKind = Kind.toBits Kind.None) :
    s.isAddressDiscriminated = none ∧
    s.getOtherDiscrimination = none ∧
    s.getSoftKey = none ∧
    s.getARM8_3Key = none ∧
    s.getKey = KeyOutcome.disabledTrap := by
  refine ⟨?_, ?_, ?_, ?_, ?_⟩ <;>
    simp [PointerAuthSchema.isAddressDiscriminated,
      PointerAuthSchema.getOtherDiscrimination, PointerAuthSchema.getSoftKey,
      PointerAuthSchema.getARM8_3Key, PointerAuthSchema.getKey, h, Kind.toBits]

/-- Claim C2 witness: the faults hold at a concrete default-constructed
schema with junk in every indeterminate bit. -/
theorem disabled_query_faults_witness :
    (PointerAuthSchema.mkDefault 1 3 7).isAddressDiscriminated = none ∧
    (PointerAuthSchema.mkDefault 1 3 7).getOtherDiscrimination = none ∧
    (PointerAuthSchema.mkDefault 1 3 7).getSoftKey = none ∧
    (PointerAuthSchema.mkDefault 1 3 7).getARM8_3Key = none ∧
    (PointerAuthSchema.mkDefault 1 3 7).getKey = KeyOutcome.disabledTrap :=
  disabled_query_faults (PointerAuthSchema.mkDefault 1 3 7) (by decide)

/-- Claim C8: the software key vocabulary has exactly 7 keys with stable
numeric identities 0–6 in declaration order, and the hardware key
vocabulary has exactly 4 keys ASIA=0, ASIB=1, ASDA=2, ASDB=3. -/
theorem key_vocabularies :
    Fintype.card SoftKey = 7 ∧
    Fintype.card ARM8_3Key = 4 ∧
    [SoftKey.FunctionPointers.toBits,
     SoftKey.BlockInvocationFunctionPointers.toBits,
     SoftKey.BlockHelperFunctionPointers.toBits,
     SoftKey.ObjCMethodListFunctionPointers.toBits,
     SoftKey.CXXVTablePointers.toBits,
     SoftKey.CXXVirtualFunctionPointers.toBits,
     SoftKey.CXXMemberFunctionPointers.toBits] = [0, 1, 2, 3, 4, 5, 6] ∧
    [ARM8_3Key.ASIA.toBits, ARM8_3Key.ASIB.toBits,
     ARM8_3Key.ASDA.toBits, ARM8_3Key.ASDB.toBits] = [0, 1, 2, 3] := by
  decide

/-- Claim C9: for every schema, the explicit bool conversion returns
exactly `isEnabled()`, which equals `getKind() != Kind::None`; both are
total functions, so neither can fault, even on a disabled schema. -/
theorem bool_conversion_is_enabled (s : PointerAuthSchema) :
    s.toBool = s.isEnabled ∧
    (s.isEnabled = true ↔ s.getKind ≠ Kind.toBits Kind.None) := by
  exact ⟨rfl, by simp [PointerAuthSchema.isEnabled]⟩

/-- Claim C3: schema values are observationally equal iff kind,
address-discrimination, discrimination and (when applicable) key agree.
Any two schemas with disabled kind bits are observationally equal whatever
their remaining bits hold; two Soft schemas agree iff their key, address
discrimination and discrimination mode agree; two ARM8_3 schemas likewise,
regardless of the indeterminate high key bit; and a Soft schema is never
observationally equal to an ARM8_3 one. -/
theorem schema_equality :
    (∀ s t : PointerAuthSchema, s.getKind = Kind.toBits Kind.None →
      t.getKind = Kind.toBits Kind.None → s.observEq t) ∧
    (∀ (k k' : SoftKey) (a a' : Bool) (d d' : Discrimination),
      (PointerAuthSchema.mkSoft k a d).observEq (PointerAuthSchema.mkSoft k' a' d') ↔
        k = k' ∧ a = a' ∧ d = d') ∧
    (∀ (k k' : ARM8_3Key) (a a' : Bool) (d d' : Discrimination) (j j' : Fin 2),
      (PointerAuthSchema.mkARM8_3 k a d j).observEq (PointerAuthSchema.mkARM8_3 k' a' d' j') ↔
        k = k' ∧ a = a' ∧ d = d') ∧
    (∀ (k : SoftKey) (k' : ARM8_3Key) (a a' : Bool) (d d' : Discrimination) (j' : Fin 2),
      ¬ (PointerAuthSchema.mkSoft k a d).observEq (PointerAuthSchema.mkARM8_3 k' a' d' j')) := by
  refine ⟨?_, by decide, by decide, by decide⟩
  intro s t hs ht
  refine ⟨?_, ?_, ?_, ?_, ?_, ?_, ?_, ?_, ?_⟩ <;>
    simp [PointerAuthSchema.toBool, PointerAuthSchema.isEnabled,
      PointerAuthSchema.isAddressDiscriminated,
      PointerAuthSchema.getOtherDiscrimination,
      PointerAuthSchema.hasOtherDiscrimination, PointerAuthSchema.getSoftKey,
      PointerAuthSchema.getARM8_3Key, PointerAuthSchema.getKey, hs, ht,
      Kind.toBits]

/-- Claim C3 witness: two concrete disabled schemas with different junk in
every unused field are observationally equal. -/
theorem schema_equality_witness :
    (PointerAuthSchema.mkDefault 0 0 0).observEq (PointerAuthSchema.mkDefault 1 3 7) :=
  schema_equality.1 (PointerAuthSchema.mkDefault 0 0 0)
    (PointerAuthSchema.mkDefault 1 3 7) (by decide) (by decide)

/-- Claim C4: a default-constructed schema is disabled whatever its junk
bits hold, and a default-constructed `PointerAuthOptions` has all ten
schema slots disabled and all four flags false, for every choice of the
slots' indeterminate bits. -/
theorem default_disabled :
    (∀ (a : Fin 2) (d : Fin 4) (k : Fin 8),
      (PointerAuthSchema.mkDefault a d k).isEnabled = false) ∧
    (∀ j : Fin 10 → Fin 2 × Fin 4 × Fin 8,
      (PointerAuthOptions.mkDefault j).FunctionPointers.isEnabled = false ∧
      (PointerAuthOptions.mkDefault j).BlockInvocationFunctionPointers.isEnabled = false ∧
      (PointerAuthOptions.mkDefault j).BlockHelperFunctionPointers.isEnabled = false ∧
      (PointerAuthOptions.mkDefault j).BlockByrefHelperFunctionPointers.isEnabled = false ∧
      (PointerAuthOptions.mkDefault j).ObjCMethodListFunctionPointers.isEnabled = false ∧
      (PointerAuthOptions.mkDefault j).CXXVTablePointers.isEnabled = false ∧
      (PointerAuthOptions.mkDefault j).CXXVTTVTablePointers.isEnabled = false ∧
      (PointerAuthOptions.mkDefault j).CXXVirtualFunctionPointers.isEnabled = false ∧
      (PointerAuthOptions.mkDefault j).CXXVirtualVariadicFunctionPointers.isEnabled = false ∧
      (PointerAuthOptions.mkDefault j).CXXMemberFunctionPointers.isEnabled = false ∧
      (PointerAuthOptions.mkDefault j).ThunkCXXVirtualMemberPointers = false ∧
      (PointerAuthOptions.mkDefault j).ReturnAddresses = false ∧
      (PointerAuthOptions.mkDefault j).IndirectGotos = false ∧
      (PointerAuthOptions.mkDefault j).AuthTraps = false) :=
  ⟨fun _ _ _ => rfl,
   fun _ => ⟨rfl, rfl, rfl, rfl, rfl, rfl, rfl, rfl, rfl, rfl, rfl, rfl, rfl, rfl⟩⟩

/-- Claim C5: `getARM8_3Key` traps on every Soft-kind schema and
`getSoftKey` traps on every ARM8_3-kind schema; each vocabulary accessor
succeeds exactly when the kind matches its vocabulary. -/
theorem vocabulary_exclusivity (s : PointerAuthSchema) :
    (s.getKind = Kind.toBits Kind.Soft → s.getARM8_3Key = none) ∧
    (s.getKind = Kind.toBits Kind.ARM8_3 → s.getSoftKey = none) ∧
    (s.getSoftKey.isSome = true ↔ s.getKind = Kind.toBits Kind.Soft) ∧
    (s.getARM8_3Key.isSome = true ↔ s.getKind = Kind.toBits Kind.ARM8_3) := by
  revert s
  decide

/-- Claim C5 witness: `getARM8_3Key` traps on a concrete Soft-kind schema
and `getSoftKey` traps on a concrete ARM8_3-kind schema. -/
theorem vocabulary_exclusivity_witness :
    (PointerAuthSchema.mkSoft SoftKey.FunctionPointers false Discrimination.None).getARM8_3Key = none ∧
    (PointerAuthSchema.mkARM8_3 ARM8_3Key.ASDB true Discrimination.DeclHash 1).getSoftKey = none :=
  ⟨(vocabulary_exclusivity
      (PointerAuthSchema.mkSoft SoftKey.FunctionPointers false Discrimination.None)).1 (by decide),
   (vocabulary_exclusivity
      (PointerAuthSchema.mkARM8_3 ARM8_3Key.ASDB true Discrimination.DeclHash 1)).2.1 (by decide)⟩

/-- Claim C6: whenever `getSoftKey` returns a key, `getKey` returns that
key's numeric value, and likewise for `getARM8_3Key`; and the concrete
schema built from `ASIA`, no address discrimination and discrimination
`None` has `hasOtherDiscrimination() == false` and `getKey() == 0`, for
either value of the indeterminate high key bit. -/
theorem rawKeyIndex_matches_key :
    (∀ (s : PointerAuthSchema) (b : Fin 8),
      s.getSoftKey = some b → s.getKey = KeyOutcome.val b.val) ∧
    (∀ (s : PointerAuthSchema) (b : Fin 4),
      s.getARM8_3Key = some b → s.getKey = KeyOutcome.val b.val) ∧
    (∀ j : Fin 2,
      (PointerAuthSchema.mkARM8_3 ARM8_3Key.ASIA false Discrimination.None j).hasOtherDiscrimination = some false ∧
      (PointerAuthSchema.mkARM8_3 ARM8_3Key.ASIA false Discrimination.None j).getKey = KeyOutcome.val 0) := by
  decide

/-- Claim C6 witness: `getKey` returns the numeric software key at a
concrete Soft schema. -/
theorem rawKeyIndex_matches_key_witness :
    (PointerAuthSchema.mkSoft SoftKey.CXXVTablePointers true Discrimination.TypeHash).getKey = KeyOutcome.val 4 :=
  rawKeyIndex_matches_key.1
    (PointerAuthSchema.mkSoft SoftKey.CXXVTablePointers true Discrimination.TypeHash)
    4 (by decide)

/-- Claim C7: storing an enabled schema into the `CXXVTablePointers` slot
of a default-constructed `PointerAuthOptions` changes only that slot: the
stored slot holds the enabled schema, the other nine slots stay disabled
and the four flags stay false. -/
theorem slot_assignment_frame (j : Fin 10 → Fin 2 × Fin 4 × Fin 8)
    (s : PointerAuthSchema) (hs : s.isEnabled = true) :
    ((PointerAuthOptions.mkDefault j).setCXXVTablePointers s).CXXVTablePointers = s ∧
    ((PointerAuthOptions.mkDefault j).setCXXVTablePointers s).CXXVTablePointers.isEnabled = true ∧
    ((PointerAuthOptions.mkDefault j).setCXXVTablePointers s).FunctionPointers.isEnabled = false ∧
    ((PointerAuthOptions.mkDefault j).setCXXVTablePointers s).BlockInvocationFunctionPointers.isEnabled = false ∧
    ((PointerAuthOptions.mkDefault j).setCXXVTablePointers s).BlockHelperFunctionPointers.isEnabled = false ∧
    ((PointerAuthOptions.mkDefault j).setCXXVTablePointers s).BlockByrefHelperFunctionPointers.isEnabled = false ∧
    ((PointerAuthOptions.mkDefault j).setCXXVTablePointers s).ObjCMethodListFunctionPointers.isEnabled = false ∧
    ((PointerAuthOptions.mkDefault j).setCXXVTablePointers s).CXXVTTVTablePointers.isEnabled = false ∧
    ((PointerAuthOptions.mkDefault j).setCXXVTablePointers s).CXXVirtualFunctionPointers.isEnabled = false ∧
    ((PointerAuthOptions.mkDefault j).setCXXVTablePointers s).CXXVirtualVariadicFunctionPointers.isEnabled = false ∧
    ((PointerAuthOptions.mkDefault j).setCXXVTablePointers s).CXXMemberFunctionPointers.isEnabled = false ∧
    ((PointerAuthOptions.mkDefault j).setCXXVTablePointers s).ThunkCXXVirtualMemberPointers = false ∧
    ((PointerAuthOptions.mkDefault j).setCXXVTablePointers s).ReturnAddresses = false ∧
    ((PointerAuthOptions.mkDefault j).setCXXVTablePointers s).IndirectGotos = false ∧
    ((PointerAuthOptions.mkDefault j).setCXXVTablePointers s).AuthTraps = false :=
  ⟨rfl, hs, rfl, rfl, rfl, rfl, rfl, rfl, rfl, rfl, rfl, rfl, rfl, rfl, rfl⟩

/-- Claim C7 witness: the frame property at the spec's Scenario A/B
schema, stored into an all-default aggregate. -/
theorem slot_assignment_frame_witness :
    ((PointerAuthOptions.mkDefault (fun _ => (0, 0, 0))).setCXXVTablePointers
        (PointerAuthSchema.mkSoft SoftKey.CXXVTablePointers true Discrimination.TypeHash)).CXXVTablePointers =
      PointerAuthSchema.mkSoft SoftKey.CXXVTablePointers true Discrimination.TypeHash ∧
    ((PointerAuthOptions.mkDefault (fun _ => (0, 0, 0))).setCXXVTablePointers
        (PointerAuthSchema.mkSoft SoftKey.CXXVTablePointers true Discrimination.TypeHash)).CXXVTablePointers.isEnabled = true ∧
    ((PointerAuthOptions.mkDefault (fun _ => (0, 0, 0))).setCXXVTablePointers
        (PointerAuthSchema.mkSoft SoftKey.CXXVTablePointers true Discrimination.TypeHash)).FunctionPointers.isEnabled = false ∧
    ((PointerAuthOptions.mkDefault (fun _ => (0, 0, 0))).setCXXVTablePointers
        (PointerAuthSchema.mkSoft SoftKey.CXXVTablePointers true Discrimination.TypeHash)).BlockInvocationFunctionPointers.isEnabled = false ∧
    ((PointerAuthOptions.mkDefault (fun _ => (0, 0, 0))).setCXXVTablePointers
        (PointerAuthSchema.mkSoft SoftKey.CXXVTablePointers true Discrimination.TypeHash)).BlockHelperFunctionPointers.isEnabled = false ∧
    ((PointerAuthOptions.mkDefault (fun _ => (0, 0, 0))).setCXXVTablePointers
        (PointerAuthSchema.mkSoft SoftKey.CXXVTablePointers true Discrimination.TypeHash)).BlockByrefHelperFunctionPointers.isEnabled = false ∧
    ((PointerAuthOptions.mkDefault (fun _ => (0, 0, 0))).setCXXVTablePointers
        (PointerAuthSchema.mkSoft SoftKey.CXXVTablePointers true Discrimination.TypeHash)).ObjCMethodListFunctionPointers.isEnabled = false ∧
    ((PointerAuthOptions.mkDefault (fun _ => (0, 0, 0))).setCXXVTablePointers
        (PointerAuthSchema.mkSoft SoftKey.CXXVTablePointers true Discrimination.TypeHash)).CXXVTTVTablePointers.isEnabled = false ∧
    ((PointerAuthOptions.mkDefault (fun _ => (0, 0, 0))).setCXXVTablePointers
        (PointerAuthSchema.mkSoft SoftKey.CXXVTablePointers true Discrimination.TypeHash)).CXXVirtualFunctionPointers.isEnabled = false ∧
    ((PointerAuthOptions.mkDefault (fun _ => (0, 0, 0))).setCXXVTablePointers
        (PointerAuthSchema.mkSoft SoftKey.CXXVTablePointers true Discrimination.TypeHash)).CXXVirtualVariadicFunctionPointers.isEnabled = false ∧
    ((PointerAuthOptions.mkDefault (fun _ => (0, 0, 0))).setCXXVTablePointers
        (PointerAuthSchema.mkSoft SoftKey.CXXVTablePointers true Discrimination.TypeHash)).CXXMemberFunctionPointers.isEnabled = false ∧
    ((PointerAuthOptions.mkDefault (fun _ => (0, 0, 0))).setCXXVTablePointers
        (PointerAuthSchema.mkSoft SoftKey.CXXVTablePointers true Discrimination.TypeHash)).ThunkCXXVirtualMemberPointers = false ∧
    ((PointerAuthOptions.mkDefault (fun _ => (0, 0, 0))).setCXXVTablePointers
        (PointerAuthSchema.mkSoft SoftKey.CXXVTablePointers true Discrimination.TypeHash)).ReturnAddresses = false ∧
    ((PointerAuthOptions.mkDefault (fun _ => (0, 0, 0))).setCXXVTablePointers
        (PointerAuthSchema.mkSoft SoftKey.CXXVTablePointers true Discrimination.TypeHash)).IndirectGotos = false ∧
    ((PointerAuthOptions.mkDefault (fun _ => (0, 0, 0))).setCXXVTablePointers
        (PointerAuthSchema.mkSoft SoftKey.CXXVTablePointers true Discrimination.TypeHash)).AuthTraps = false :=
  slot_assignment_frame (fun _ => (0, 0, 0))
    (PointerAuthSchema.mkSoft SoftKey.CXXVTablePointers true Discrimination.TypeHash)
    (by decide)

/-- Claim C10: on every schema whose kind bits encode one of the three
defined kinds, `getKey` never reaches the trailing bad-key-kind
unreachable: it traps on the explicit disabled check exactly when the kind
is `None`, and otherwise returns a value. -/
theorem getKey_never_bad_kind (s : PointerAuthSchema)
    (h : s.getKind = Kind.toBits Kind.None ∨ s.getKind = Kind.toBits Kind.Soft ∨
         s.getKind = Kind.toBits Kind.ARM8_3) :
    s.getKey ≠ KeyOutcome.badKindTrap ∧
    (s.getKey = KeyOutcome.disabledTrap ↔ s.getKind = Kind.toBits Kind.None) ∧
    (s.getKind ≠ Kind.toBits Kind.None → ∃ n : Fin 8, s.getKey = KeyOutcome.val n.val) := by
  revert s
  decide

/-- Claim C10 witness: the property at a concrete ARM8_3 schema. -/
theorem getKey_never_bad_kind_witness :
    (PointerAuthSchema.mkARM8_3 ARM8_3Key.ASDA false Discrimination.None 1).getKey ≠ KeyOutcome.badKindTrap ∧
    ((PointerAuthSchema.mkARM8_3 ARM8_3Key.ASDA false Discrimination.None 1).getKey = KeyOutcome.disabledTrap ↔
      (PointerAuthSchema.mkARM8_3 ARM8_3Key.ASDA false Discrimination.None 1).getKind = Kind.toBits Kind.None) ∧
    ((PointerAuthSchema.mkARM8_3 ARM8_3Key.ASDA false Discrimination.None 1).getKind ≠ Kind.toBits Kind.None →
      ∃ n : Fin 8,
        (PointerAuthSchema.mkARM8_3 ARM8_3Key.ASDA false Discrimination.None 1).getKey = KeyOutcome.val n.val) :=
  getKey_never_bad_kind (PointerAuthSchema.mkARM8_3 ARM8_3Key.ASDA false Discrimination.None 1)
    (Or.inr (Or.inr (by decide)))

/-- Claim C9 witness: the equivalence at a concrete disabled schema. -/
theorem bool_conversion_is_enabled_witness :
    (PointerAuthSchema.mkDefault 0 2 5).toBool = (PointerAuthSchema.mkDefault 0 2 5).isEnabled ∧
    ((PointerAuthSchema.mkDefault 0 2 5).isEnabled = true ↔
      (PointerAuthSchema.mkDefault 0 2 5).getKind ≠ Kind.toBits Kind.None) :=
  bool_conversion_is_enabled (PointerAuthSchema.mkDefault 0 2 5)

end PointerAuth
